import Mathlib

/-!
Verification development for the CivicLens issue-management backend.

The definitions below are a shallow embedding of the backend issue router
(Express handlers over Prisma) and its helpers:
  - the enum types mirror the SQL schema enums,
  - calculateSLA mirrors the SLA helper of the issues router,
  - buildIssuesWhere, matchesWhere and listIssues mirror the list handler,
  - getIssue, createIssue and updateIssue mirror the corresponding handlers,
    with the database access (findUnique and update) passed in explicitly as
    the current stored row, matching the handler structure,
  - redisDel and the cache-store model mirror the redis cache utilities.
Timestamps are in milliseconds since the epoch, as JavaScript Date values.
-/

namespace CivicLens

/-- Role enum of the users table. -/
inductive Role where
  | ADMIN
  | DEPARTMENT_HEAD
  | TEAM_MEMBER
deriving DecidableEq

/-- IssueStatus enum of the issues table. -/
inductive IssueStatus where
  | PENDING
  | IN_PROGRESS
  | RESOLVED
  | CLOSED
deriving DecidableEq

/-- Priority enum of the issues table. -/
inductive Priority where
  | LOW
  | MEDIUM
  | HIGH
  | CRITICAL
deriving DecidableEq

/-- LifecycleStep enum of the issue lifecycle table. -/
inductive LifecycleStep where
  | REPORTED
  | ACKNOWLEDGED
  | ASSIGNED
  | RESOLVED
  | CITIZEN_VERIFIED
deriving DecidableEq

/-- LifecycleStatus enum of the issue lifecycle table. -/
inductive LifecycleStatus where
  | PENDING
  | CURRENT
  | COMPLETED
deriving DecidableEq

/-- The string name of an issue status, as stored in the database row. -/
def IssueStatus.str : IssueStatus → String
  | .PENDING => "PENDING"
  | .IN_PROGRESS => "IN_PROGRESS"
  | .RESOLVED => "RESOLVED"
  | .CLOSED => "CLOSED"

/-- The string name of a priority, as stored in the database row. -/
def Priority.str : Priority → String
  | .LOW => "LOW"
  | .MEDIUM => "MEDIUM"
  | .HIGH => "HIGH"
  | .CRITICAL => "CRITICAL"

/-- An authenticated user as seen by the route handlers. -/
structure User where
  id : String
  role : Role
  department : Option String
deriving DecidableEq

/-- A lifecycle record row (step and status; notes and timestamps are not
used by any handler logic modelled here). -/
structure LifecycleRecord where
  step : LifecycleStep
  status : LifecycleStatus
deriving DecidableEq

/-- An issue row together with its lifecycle records, as the handlers load it
(createdAt in milliseconds since the epoch; coordinates as exact rationals
standing for the stored double-precision values). -/
structure Issue where
  id : String
  title : String
  description : String
  status : IssueStatus
  priority : Priority
  department : String
  latitude : ℚ
  longitude : ℚ
  address : Option String
  createdAt : Int
  reportedById : Option String
  assignedToId : Option String
  lifecycle : List LifecycleRecord
deriving DecidableEq

/-- JavaScript truthiness of an optional query-string value: absent and the
empty string are falsy. -/
def strTruthy : Option String → Bool
  | some s => s ≠ ""
  | none => false

/-- The priority-to-allowance table of calculateSLA: the slaHours object
lookup, with the || 72 fallback for an unrecognized priority string. -/
def slaHoursLookup (priority : String) : Int :=
  if priority = "CRITICAL" then 4
  else if priority = "HIGH" then 24
  else if priority = "MEDIUM" then 72
  else if priority = "LOW" then 168
  else 72

/-- The calculateSLA helper of the issues router. diffHours is
Math.floor of the elapsed milliseconds divided by an hour (floor division on
integers); the status check precedes the overdue check, and remaining time
is rendered in hours when at most 2 remain, otherwise in floored days. -/
def calculateSLA (createdAt : Int) (status : String) (priority : String)
    (now : Int) : String :=
  let diffHours : Int := Int.fdiv (now - createdAt) (1000 * 60 * 60)
  let maxHours : Int := slaHoursLookup priority
  if status = "RESOLVED" ∨ status = "CLOSED" then "Closed"
  else if diffHours > maxHours then "Overdue"
  else
    let remainingHours := maxHours - diffHours
    if remainingHours ≤ 2 then toString remainingHours ++ "h left"
    else toString (Int.fdiv remainingHours 24) ++ "d left"

/-- Case-insensitive substring test, mirroring a Prisma contains filter in
insensitive mode. -/
def insContains (haystack needle : String) : Bool :=
  let h := haystack.toLower.toList
  let n := needle.toLower.toList
  (List.range (h.length + 1)).any (fun i => n.isPrefixOf (h.drop i))

/-- The validated query parameters of the issue list route (status and
priority are zod enums, the rest free strings). -/
structure ListFilters where
  status : Option IssueStatus := none
  priority : Option Priority := none
  department : Option String := none
  assignedToId : Option String := none
  search : Option String := none

/-- The where clause object the list handler builds field by field. -/
structure WhereClause where
  assignedToId : Option String := none
  department : Option String := none
  status : Option IssueStatus := none
  priority : Option Priority := none
  search : Option String := none

/-- The where-clause construction of the issue list handler, in source
order: the role-based fields are written first, then each truthy caller
filter is written into the same object (overwriting the field when the key
coincides). -/
def buildIssuesWhere (user : User) (f : ListFilters) : WhereClause :=
  let w : WhereClause := {}
  let w := if user.role = Role.TEAM_MEMBER then
      { w with assignedToId := some user.id }
    else if user.role = Role.DEPARTMENT_HEAD ∧ strTruthy user.department then
      { w with department := user.department }
    else w
  let w := if (f.status).isSome then { w with status := f.status } else w
  let w := if (f.priority).isSome then { w with priority := f.priority } else w
  let w := if strTruthy f.department then { w with department := f.department } else w
  let w := if strTruthy f.assignedToId then { w with assignedToId := f.assignedToId } else w
  let w := if strTruthy f.search then { w with search := f.search } else w
  w

/-- Whether an issue row satisfies a where clause (the Prisma query
semantics of the fields the list handler uses; the search key is an OR of
insensitive contains over title, description and address, where a null
address matches nothing). -/
def matchesWhere (w : WhereClause) (i : Issue) : Bool :=
  (match w.assignedToId with
   | some a => i.assignedToId = some a
   | none => true) &&
  (match w.department with
   | some d => i.department = d
   | none => true) &&
  (match w.status with
   | some s => i.status = s
   | none => true) &&
  (match w.priority with
   | some p => i.priority = p
   | none => true) &&
  (match w.search with
   | some s =>
       insContains i.title s || insContains i.description s ||
       (match i.address with
        | some a => insContains a s
        | none => false)
   | none => true)

/-- The issue list route: filter the stored issues by the built where
clause, then apply the skip/take pagination window. The stored list stands
for the repository enumeration (the route orders by createdAt descending;
ordering does not affect the membership facts proved here). -/
def listIssues (user : User) (f : ListFilters) (db : List Issue)
    (skip take : Nat) : List Issue :=
  ((db.filter (matchesWhere (buildIssuesWhere user f))).drop skip).take take

/-- The typed failures the handlers return (validation failures come from
the zod middleware, not-found and access-denied from the handler body). -/
inductive ApiError where
  | validationFailed
  | notFound
  | accessDenied
deriving DecidableEq

/-- The single-issue read route: 404 when the row is absent, 403 when a
TEAM_MEMBER reads an issue not assigned to them or a DEPARTMENT_HEAD reads
an issue outside their department, otherwise the issue. The stored row is
passed in as the findUnique result. -/
def getIssue (user : User) (found : Option Issue) : Except ApiError Issue :=
  match found with
  | none => Except.error ApiError.notFound
  | some issue =>
    if user.role = Role.TEAM_MEMBER ∧ issue.assignedToId ≠ some user.id then
      Except.error ApiError.accessDenied
    else if user.role = Role.DEPARTMENT_HEAD ∧ some issue.department ≠ user.department then
      Except.error ApiError.accessDenied
    else Except.ok issue

/-- The request body of the create route. -/
structure CreatePayload where
  title : String
  description : String
  department : String
  latitude : ℚ
  longitude : ℚ
  address : Option String := none
  priority : Option Priority := none

/-- The zod schema of the create route: minimum text lengths and
geographic bounds. -/
def validCreateBody (p : CreatePayload) : Bool :=
  p.title.length ≥ 5 && p.description.length ≥ 10 && p.department.length ≥ 1 &&
  (-90 ≤ p.latitude && p.latitude ≤ 90) &&
  (-180 ≤ p.longitude && p.longitude ≤ 180)

/-- The issue row the create route inserts: priority defaults to MEDIUM,
status takes the schema default PENDING, and the nested create appends the
REPORTED(COMPLETED) and ACKNOWLEDGED(CURRENT) lifecycle records. The
database-generated id and the creation instant are passed in. -/
def createIssue (user : User) (p : CreatePayload) (id : String)
    (now : Int) : Issue :=
  { id := id
    title := p.title
    description := p.description
    status := IssueStatus.PENDING
    priority := (p.priority).getD Priority.MEDIUM
    department := p.department
    latitude := p.latitude
    longitude := p.longitude
    address := p.address
    createdAt := now
    reportedById := some user.id
    assignedToId := none
    lifecycle := [⟨LifecycleStep.REPORTED, LifecycleStatus.COMPLETED⟩,
                  ⟨LifecycleStep.ACKNOWLEDGED, LifecycleStatus.CURRENT⟩] }

/-- The create route behind its zod middleware. -/
def createIssueChecked (user : User) (p : CreatePayload) (id : String)
    (now : Int) : Except ApiError Issue :=
  if validCreateBody p then Except.ok (createIssue user p id now)
  else Except.error ApiError.validationFailed

/-- The request body of the update route (every field optional). -/
structure UpdatePatch where
  title : Option String := none
  description : Option String := none
  status : Option IssueStatus := none
  priority : Option Priority := none
  assignedToId : Option String := none

/-- The zod schema of the update route: minimum lengths on the optional
text fields, enum membership enforced by the types. -/
def validUpdateBody (p : UpdatePatch) : Bool :=
  (match p.title with
   | some t => t.length ≥ 5
   | none => true) &&
  (match p.description with
   | some d => d.length ≥ 10
   | none => true)

/-- The object spread of the update body over the current row: every field
present in the patch overwrites the stored field. -/
def applyPatch (i : Issue) (p : UpdatePatch) : Issue :=
  { i with
    title := (p.title).getD i.title
    description := (p.description).getD i.description
    status := (p.status).getD i.status
    priority := (p.priority).getD i.priority
    assignedToId := match p.assignedToId with
      | some a => some a
      | none => i.assignedToId }

/-- The update route: zod validation, then 404 on a missing row, then the
two role checks (a TEAM_MEMBER may only touch issues assigned to them, a
DEPARTMENT_HEAD only issues of their own department — no field-level
check), then the lifecycle appends: ASSIGNED(COMPLETED) when a truthy
assignedToId differs from the stored one, RESOLVED(COMPLETED) when the
patch sets status RESOLVED and the stored status is not already RESOLVED.
The stored row is passed in as the findUnique result; the returned issue is
the updated row. -/
def updateIssue (user : User) (current : Option Issue) (p : UpdatePatch) :
    Except ApiError Issue :=
  if validUpdateBody p then
    match current with
    | none => Except.error ApiError.notFound
    | some issue =>
      if user.role = Role.TEAM_MEMBER ∧ issue.assignedToId ≠ some user.id then
        Except.error ApiError.accessDenied
      else if user.role = Role.DEPARTMENT_HEAD ∧ some issue.department ≠ user.department then
        Except.error ApiError.accessDenied
      else
        let lifecycleUpdates : List LifecycleRecord :=
          (if strTruthy p.assignedToId ∧ p.assignedToId ≠ issue.assignedToId then
             [⟨LifecycleStep.ASSIGNED, LifecycleStatus.COMPLETED⟩]
           else []) ++
          (if p.status = some IssueStatus.RESOLVED ∧ issue.status ≠ IssueStatus.RESOLVED then
             [⟨LifecycleStep.RESOLVED, LifecycleStatus.COMPLETED⟩]
           else [])
        Except.ok { applyPatch issue p with
                    lifecycle := issue.lifecycle ++ lifecycleUpdates }
  else Except.error ApiError.validationFailed

/-- The number of RESOLVED lifecycle records on an issue. -/
def resolvedCount (i : Issue) : Nat :=
  (i.lifecycle).countP (fun r => r.step = LifecycleStep.RESOLVED)

/-- Whether the RESOLVED lifecycle step is already COMPLETED on an issue. -/
def resolvedCompleted (i : Issue) : Bool :=
  (i.lifecycle).any (fun r =>
    r.step = LifecycleStep.RESOLVED ∧ r.status = LifecycleStatus.COMPLETED)

/-- The lifecycle-engine failure for an out-of-order step. -/
inductive LifecycleError where
  | invalidTransition
deriving DecidableEq

/-- Modelled from the spec: the repository declares the CITIZEN_VERIFIED
lifecycle step (schema enum and seed data) but ships no route that appends
it; the append operation itself is missing from the sources. Per the spec,
CITIZEN_VERIFIED is a terminal acknowledgment step that may only be
appended when RESOLVED is already COMPLETED, and attempting to verify
before resolution fails with an InvalidTransitionError. -/
def verifyCitizen (i : Issue) : Except LifecycleError Issue :=
  if resolvedCompleted i then
    Except.ok { i with
      lifecycle := i.lifecycle ++
        [⟨LifecycleStep.CITIZEN_VERIFIED, LifecycleStatus.COMPLETED⟩] }
  else Except.error LifecycleError.invalidTransition

/-- A redis key-value store as an association list of key and serialized
value. -/
abbrev CacheStore := List (String × String)

/-- The redis DEL command as the cache utility issues it: it removes the
row whose key is exactly the given string (DEL performs no pattern
matching). -/
def redisDel (store : CacheStore) (key : String) : CacheStore :=
  store.filter (fun kv => kv.1 ≠ key)

/-- The cache key the list handler writes: the literal namespace tag
followed by the serialized where/skip/limit object. -/
def issuesCacheKey (serialized : String) : String :=
  "issues:" ++ serialized

/-- The cache invalidation call the create, update and delete handlers
make: cache.del with the literal argument string of the source. -/
def invalidateIssuesCache (store : CacheStore) : CacheStore :=
  redisDel store "issues:*"

/-- Whether some cached row remains under the issue-listing namespace. -/
def hasIssuesKey (store : CacheStore) : Bool :=
  store.any (fun kv => ("issues:".toList).isPrefixOf kv.1.toList)

/-! Concrete fixtures used to evaluate the handlers at specific inputs. -/

/-- A DEPARTMENT_HEAD of Public Works. -/
def dhC1 : User :=
  { id := "u1", role := Role.DEPARTMENT_HEAD, department := some "Public Works" }

/-- An issue belonging to a different department. -/
def issueC1 : Issue :=
  { id := "i1", title := "Overflowing bin", description := "Bin overflowing near the park",
    status := IssueStatus.PENDING, priority := Priority.MEDIUM,
    department := "Sanitation", latitude := 0, longitude := 0, address := none,
    createdAt := 0, reportedById := none, assignedToId := none, lifecycle := [] }

/-- Claim C1: the list route is claimed to keep every result inside the
actor's scope for every combination of caller filters. Evaluated at the
failing input: a DEPARTMENT_HEAD of Public Works who passes the caller
filter department equal to Sanitation receives a Sanitation issue, because
the caller-supplied department filter overwrites the role-scope field of
the where clause instead of intersecting with it. -/
theorem C1_department_scope_override :
    listIssues dhC1 { department := some "Sanitation" } [issueC1] 0 10 = [issueC1] ∧
    issueC1.department = "Sanitation" ∧
    dhC1.role = Role.DEPARTMENT_HEAD ∧
    dhC1.department = some "Public Works" := by
  refine ⟨?_, rfl, rfl, rfl⟩
  decide

/-- A TEAM_MEMBER actor. -/
def tmC2 : User :=
  { id := "tm1", role := Role.TEAM_MEMBER, department := some "Public Works" }

/-- An issue assigned to that TEAM_MEMBER, with MEDIUM priority. -/
def issueC2 : Issue :=
  { id := "i2", title := "Broken streetlight", description := "Streetlight out on 5th avenue",
    status := IssueStatus.IN_PROGRESS, priority := Priority.MEDIUM,
    department := "Public Works", latitude := 0, longitude := 0, address := none,
    createdAt := 0, reportedById := none, assignedToId := some "tm1",
    lifecycle := [⟨LifecycleStep.REPORTED, LifecycleStatus.COMPLETED⟩] }

/-- Claim C2, counterexample: a TEAM_MEMBER assigned to an issue who
patches its priority succeeds and the priority changes — the update route
has no field-level authorization, so the claimed AuthorizationError does
not occur. -/
theorem C2_assigned_member_changes_priority :
    updateIssue tmC2 (some issueC2) { priority := some Priority.HIGH } =
      Except.ok { issueC2 with priority := Priority.HIGH } ∧
    tmC2.role = Role.TEAM_MEMBER ∧
    issueC2.priority = Priority.MEDIUM := ⟨rfl, rfl, rfl⟩

/-- Claim C2, amended: the only TEAM_MEMBER restriction the update route
enforces is assignment — on an issue not assigned to the actor, any
well-formed patch (priority changes included) is rejected with the
access-denied error and the stored issue is untouched. -/
theorem C2_unassigned_member_denied (u : User) (i : Issue) (p : UpdatePatch)
    (hrole : u.role = Role.TEAM_MEMBER)
    (hassign : i.assignedToId ≠ some u.id)
    (hvalid : validUpdateBody p = true) :
    updateIssue u (some i) p = Except.error ApiError.accessDenied := by
  simp [updateIssue, hvalid, hrole, hassign]

/-- Claim C2, witness for the amended theorem at a concrete unassigned
issue and priority patch. -/
theorem C2_unassigned_member_denied_witness :
    updateIssue tmC2 (some issueC1) { priority := some Priority.HIGH } =
      Except.error ApiError.accessDenied :=
  C2_unassigned_member_denied tmC2 issueC1 { priority := some Priority.HIGH }
    rfl (by decide) rfl

/-- An ADMIN actor. -/
def adminC3 : User := { id := "a1", role := Role.ADMIN, department := none }

/-- A PENDING (not RESOLVED) issue. -/
def issueC3 : Issue :=
  { id := "i3", title := "Blocked storm drain", description := "Storm drain blocked before monsoon",
    status := IssueStatus.PENDING, priority := Priority.HIGH,
    department := "Public Works", latitude := 0, longitude := 0, address := none,
    createdAt := 0, reportedById := none, assignedToId := none, lifecycle := [] }

/-- Claim C3, counterexample: an update that sets status CLOSED on a
PENDING issue is accepted and the issue ends CLOSED — the route has no
CLOSED-from-RESOLVED guard, so a CLOSED issue need never have been
RESOLVED. -/
theorem C3_close_pending_accepted :
    updateIssue adminC3 (some issueC3) { status := some IssueStatus.CLOSED } =
      Except.ok { issueC3 with status := IssueStatus.CLOSED } ∧
    issueC3.status = IssueStatus.PENDING := ⟨rfl, rfl⟩

/-- Claim C3, amended: the update route accepts a status change to CLOSED
from any current status (for an actor passing the role checks, here ADMIN);
no RESOLVED precondition is enforced and no lifecycle record is appended by
the closing update. -/
theorem C3_close_from_any_status (u : User) (i : Issue)
    (hrole : u.role = Role.ADMIN) :
    ∃ j, updateIssue u (some i) { status := some IssueStatus.CLOSED } =
          Except.ok j ∧
         j.status = IssueStatus.CLOSED ∧ j.lifecycle = i.lifecycle := by
  have h1 : updateIssue u (some i) ({ status := some IssueStatus.CLOSED } : UpdatePatch) =
      Except.ok { applyPatch i { status := some IssueStatus.CLOSED } with
                  lifecycle := i.lifecycle } := by
    simp [updateIssue, validUpdateBody, hrole, strTruthy]
  exact ⟨_, h1, rfl, rfl⟩

/-- Claim C3, witness for the amended theorem: closing a concrete PENDING
issue as an ADMIN. -/
theorem C3_close_from_any_status_witness :
    ∃ j, updateIssue adminC3 (some issueC3) { status := some IssueStatus.CLOSED } =
          Except.ok j ∧
         j.status = IssueStatus.CLOSED ∧ j.lifecycle = issueC3.lifecycle :=
  C3_close_from_any_status adminC3 issueC3 rfl

/-- Claim C4: appending the CITIZEN_VERIFIED step to an issue whose
lifecycle holds no RESOLVED record with status COMPLETED fails with the
invalid-transition error. -/
theorem C4_verify_before_resolution_fails (i : Issue)
    (h : resolvedCompleted i = false) :
    verifyCitizen i = Except.error LifecycleError.invalidTransition := by
  simp [verifyCitizen, h]

/-- Claim C4, witness: a freshly reported issue (no RESOLVED record) cannot
be citizen-verified. -/
theorem C4_verify_before_resolution_fails_witness :
    verifyCitizen issueC2 = Except.error LifecycleError.invalidTransition :=
  C4_verify_before_resolution_fails issueC2 (by decide)

/-- Claim C5: updating with status RESOLVED twice in sequence (by an actor
passing the role checks, here ADMIN) succeeds both times and leaves exactly
one RESOLVED lifecycle record on an issue that is not yet resolved: the
first call appends the record, the second finds the stored status already
RESOLVED and appends nothing. -/
theorem C5_resolve_twice_one_record (u : User) (i : Issue)
    (hrole : u.role = Role.ADMIN)
    (hstatus : i.status ≠ IssueStatus.RESOLVED)
    (hcount : resolvedCount i = 0) :
    ∃ i1 i2,
      updateIssue u (some i) { status := some IssueStatus.RESOLVED } =
        Except.ok i1 ∧
      updateIssue u (some i1) { status := some IssueStatus.RESOLVED } =
        Except.ok i2 ∧
      resolvedCount i1 = 1 ∧ resolvedCount i2 = 1 := by
  have h1 : updateIssue u (some i) ({ status := some IssueStatus.RESOLVED } : UpdatePatch) =
      Except.ok { applyPatch i { status := some IssueStatus.RESOLVED } with
                  lifecycle := i.lifecycle ++
                    [⟨LifecycleStep.RESOLVED, LifecycleStatus.COMPLETED⟩] } := by
    simp [updateIssue, validUpdateBody, hrole, strTruthy, hstatus]
  have hc1 : resolvedCount
      ({ applyPatch i { status := some IssueStatus.RESOLVED } with
         lifecycle := i.lifecycle ++
           [⟨LifecycleStep.RESOLVED, LifecycleStatus.COMPLETED⟩] } : Issue) = 1 := by
    simp [resolvedCount, List.countP_append] at hcount ⊢
    simpa [List.countP] using hcount
  have h2 : updateIssue u
      (some { applyPatch i { status := some IssueStatus.RESOLVED } with
              lifecycle := i.lifecycle ++
                [⟨LifecycleStep.RESOLVED, LifecycleStatus.COMPLETED⟩] })
      ({ status := some IssueStatus.RESOLVED } : UpdatePatch) =
      Except.ok { applyPatch
          { applyPatch i { status := some IssueStatus.RESOLVED } with
            lifecycle := i.lifecycle ++
              [⟨LifecycleStep.RESOLVED, LifecycleStatus.COMPLETED⟩] }
          { status := some IssueStatus.RESOLVED } with
          lifecycle := i.lifecycle ++
            [⟨LifecycleStep.RESOLVED, LifecycleStatus.COMPLETED⟩] } := by
    simp [updateIssue, validUpdateBody, hrole, strTruthy, applyPatch]
  exact ⟨_, _, h1, h2, hc1, hc1⟩

/-- Claim C5, witness: resolving the same PENDING issue twice as ADMIN. -/
theorem C5_resolve_twice_one_record_witness :
    ∃ i1 i2,
      updateIssue adminC3 (some issueC3) { status := some IssueStatus.RESOLVED } =
        Except.ok i1 ∧
      updateIssue adminC3 (some i1) { status := some IssueStatus.RESOLVED } =
        Except.ok i2 ∧
      resolvedCount i1 = 1 ∧ resolvedCount i2 = 1 :=
  C5_resolve_twice_one_record adminC3 issueC3 rfl (by decide) (by decide)

/-- A TEAM_MEMBER who reports an issue. -/
def tmC6 : User :=
  { id := "tm6", role := Role.TEAM_MEMBER, department := some "Sanitation" }

/-- A well-formed creation payload. -/
def payloadC6 : CreatePayload :=
  { title := "Garbage not collected", description := "Garbage pickup missed for a week",
    department := "Sanitation", latitude := 0, longitude := 0 }

/-- Claim C6, counterexample: a TEAM_MEMBER who creates an issue and
immediately reads it back by id is denied — the new issue is unassigned, so
the read route's TEAM_MEMBER check (assignedToId equal to the caller)
fails, and no issue with the claimed lifecycle is returned. -/
theorem C6_creator_read_back_denied :
    getIssue tmC6 (some (createIssue tmC6 payloadC6 "n6" 0)) =
      Except.error ApiError.accessDenied ∧
    tmC6.role = Role.TEAM_MEMBER ∧
    (createIssue tmC6 payloadC6 "n6" 0).assignedToId = none := ⟨rfl, rfl, rfl⟩

/-- Claim C6, amended: for an actor whose read scope covers the fresh
issue — an ADMIN here — createIssue followed immediately by getIssue on the
returned id yields an issue whose lifecycle is exactly
[REPORTED:COMPLETED, ACKNOWLEDGED:CURRENT] and whose status is PENDING. -/
theorem C6_admin_roundtrip (u : User) (p : CreatePayload) (id : String)
    (now : Int) (hrole : u.role = Role.ADMIN) :
    ∃ i, getIssue u (some (createIssue u p id now)) = Except.ok i ∧
      i.lifecycle = [⟨LifecycleStep.REPORTED, LifecycleStatus.COMPLETED⟩,
                     ⟨LifecycleStep.ACKNOWLEDGED, LifecycleStatus.CURRENT⟩] ∧
      i.status = IssueStatus.PENDING := by
  have h1 : getIssue u (some (createIssue u p id now)) =
      Except.ok (createIssue u p id now) := by
    simp [getIssue, hrole]
  exact ⟨_, h1, rfl, rfl⟩

/-- Claim C6, witness: the ADMIN round trip at a concrete payload. -/
theorem C6_admin_roundtrip_witness :
    ∃ i, getIssue adminC3 (some (createIssue adminC3 payloadC6 "n6" 0)) =
          Except.ok i ∧
      i.lifecycle = [⟨LifecycleStep.REPORTED, LifecycleStatus.COMPLETED⟩,
                     ⟨LifecycleStep.ACKNOWLEDGED, LifecycleStatus.CURRENT⟩] ∧
      i.status = IssueStatus.PENDING :=
  C6_admin_roundtrip adminC3 payloadC6 "n6" 0 rfl

/-- Claim C7: for every creation instant, every current instant and every
priority string, an issue whose status is RESOLVED or CLOSED gets the SLA
string Closed, regardless of elapsed time. -/
theorem C7_resolved_sla_closed (createdAt now : Int) (status priority : String)
    (h : status = "RESOLVED" ∨ status = "CLOSED") :
    calculateSLA createdAt status priority now = "Closed" := by
  rcases h with h | h <;> simp [calculateSLA, h]

/-- Claim C7, witness: a RESOLVED issue a thousand hours past a CRITICAL
allowance still reads Closed. -/
theorem C7_resolved_sla_closed_witness :
    calculateSLA 0 "RESOLVED" "CRITICAL" (1000 * 3600000) = "Closed" :=
  C7_resolved_sla_closed 0 (1000 * 3600000) "RESOLVED" "CRITICAL" (Or.inl rfl)

/-- Claim C8: the allowance table is CRITICAL=4, HIGH=24, MEDIUM=72,
LOW=168 with a 72-hour fallback for an unrecognized priority, and for a
non-RESOLVED, non-CLOSED issue observed H whole hours after creation, the
SLA string is Overdue when H exceeds the allowance, the remaining hours
rendered as h-left when at most 2 remain, and the floored remaining days
rendered as d-left otherwise. -/
theorem C8_sla_allowances :
    (∀ (createdAt H : Int) (status priority : String),
        status ≠ "RESOLVED" → status ≠ "CLOSED" →
        (slaHoursLookup priority < H →
          calculateSLA createdAt status priority (createdAt + H * (1000 * 60 * 60)) =
            "Overdue") ∧
        (H ≤ slaHoursLookup priority → slaHoursLookup priority - H ≤ 2 →
          calculateSLA createdAt status priority (createdAt + H * (1000 * 60 * 60)) =
            toString (slaHoursLookup priority - H) ++ "h left") ∧
        (H ≤ slaHoursLookup priority → 2 < slaHoursLookup priority - H →
          calculateSLA createdAt status priority (createdAt + H * (1000 * 60 * 60)) =
            toString (Int.fdiv (slaHoursLookup priority - H) 24) ++ "d left")) ∧
    slaHoursLookup "CRITICAL" = 4 ∧ slaHoursLookup "HIGH" = 24 ∧
    slaHoursLookup "MEDIUM" = 72 ∧ slaHoursLookup "LOW" = 168 ∧
    (∀ p : String, p ≠ "CRITICAL" → p ≠ "HIGH" → p ≠ "MEDIUM" → p ≠ "LOW" →
      slaHoursLookup p = 72) := by
  refine ⟨?_, rfl, rfl, rfl, rfl, ?_⟩
  · intro createdAt H status priority h1 h2
    have hne : ¬(status = "RESOLVED" ∨ status = "CLOSED") := fun h => h.elim h1 h2
    have he : createdAt + H * (1000 * 60 * 60) - createdAt = H * (1000 * 60 * 60) := by
      ring
    have hfd : Int.fdiv (createdAt + H * (1000 * 60 * 60) - createdAt)
        (1000 * 60 * 60) = H := by
      rw [he]
      exact Int.mul_fdiv_cancel H (by norm_num)
    simp only [calculateSLA, hfd, if_neg hne]
    refine ⟨?_, ?_, ?_⟩
    · intro hover
      rw [if_pos hover]
    · intro hle hrem
      rw [if_neg (not_lt.mpr hle), if_pos hrem]
    · intro hle hrem
      rw [if_neg (not_lt.mpr hle), if_neg (not_le.mpr hrem)]
  · intro p a b c d
    simp [slaHoursLookup, a, b, c, d]

/-- Claim C8, witness: a PENDING CRITICAL issue five whole hours after
creation is Overdue. -/
theorem C8_sla_allowances_witness :
    calculateSLA 0 "PENDING" "CRITICAL" (0 + 5 * (1000 * 60 * 60)) = "Overdue" :=
  (C8_sla_allowances.1 0 5 "PENDING" "CRITICAL" (by decide) (by decide)).1
    (by decide)

/-- An ADMIN actor for the creation scenario. -/
def adminC9 : User := { id := "a9", role := Role.ADMIN, department := none }

/-- The scenario payload: a CRITICAL issue at latitude 23.6139 and
longitude 85.2790. -/
def payloadC9 : CreatePayload :=
  { title := "Pothole on Main Street",
    description := "Large pothole causing vehicle damage",
    department := "Public Works",
    latitude := 236139 / 10000, longitude := 852790 / 10000,
    priority := some Priority.CRITICAL }

/-- The issue the scenario creation inserts at instant 0. -/
def issueC9 : Issue := createIssue adminC9 payloadC9 "c9" 0

/-- Claim C9, counterexample: at now equal to createdAt the freshly created
CRITICAL issue reads 0d left, not the claimed 4h left — 4 remaining hours
exceed the 2-hour threshold, so the route renders floored days. -/
theorem C9_fresh_critical_not_4h :
    issueC9.status = IssueStatus.PENDING ∧
    calculateSLA issueC9.createdAt (issueC9.status).str (issueC9.priority).str 0 =
      "0d left" ∧
    "0d left" ≠ "4h left" := ⟨rfl, by decide, by decide⟩

/-- Claim C9, amended: the scenario with the SLA string the code produces
at creation: the created issue is PENDING and reads 0d left at
now=createdAt, Overdue five hours later, and Closed once an update resolves
it. -/
theorem C9_critical_scenario :
    validCreateBody payloadC9 = true ∧
    createIssueChecked adminC9 payloadC9 "c9" 0 = Except.ok issueC9 ∧
    issueC9.status = IssueStatus.PENDING ∧
    calculateSLA issueC9.createdAt (issueC9.status).str (issueC9.priority).str 0 =
      "0d left" ∧
    calculateSLA issueC9.createdAt (issueC9.status).str (issueC9.priority).str
      (5 * (1000 * 60 * 60)) = "Overdue" ∧
    (∃ r, updateIssue adminC9 (some issueC9) { status := some IssueStatus.RESOLVED } =
            Except.ok r ∧
          r.status = IssueStatus.RESOLVED ∧
          calculateSLA r.createdAt (r.status).str (r.priority).str
            (6 * (1000 * 60 * 60)) = "Closed") := by
  have hvalid : validCreateBody payloadC9 = true := by
    norm_num [validCreateBody, payloadC9]
    decide
  refine ⟨hvalid, ?_, rfl, by decide, by decide, ⟨_, rfl, rfl, by decide⟩⟩
  simp [createIssueChecked, hvalid, issueC9]

/-- The serialized where/skip/limit object of a cached first page with no
filters, as JSON.stringify renders it. -/
def serializedWhereC10 : String :=
  "\x7b\"where\":\x7b\x7d,\"skip\":0,\"limitNum\":10\x7d"

/-- A cache holding that one issue-listing page. -/
def storeC10 : CacheStore := [(issuesCacheKey serializedWhereC10, "cached page")]

/-- Claim C10: the invalidation the mutation handlers perform deletes only
the literal key issues:* (redis DEL does no pattern matching), so a
previously cached issue-listing entry under its real serialized key
survives the invalidation — the issues: namespace is not cleared. -/
theorem C10_invalidation_misses_namespace :
    invalidateIssuesCache storeC10 = storeC10 ∧
    hasIssuesKey (invalidateIssuesCache storeC10) = true ∧
    issuesCacheKey serializedWhereC10 ≠ "issues:*" := by
  refine ⟨?_, ?_, ?_⟩ <;> decide

end CivicLens
